import Mathlib

/-!
Shallow embedding of `src/test21.py`, a Telegram weather bot: the weather
lookup `get_weather`, the four chat handlers, and the startup configuration
check, together with proofs of the specification claims.

Modelling conventions:
* JSON numbers are modelled as integers (`Int`); no claim depends on
  floating-point behaviour.
* Python exceptions reachable from the `try` block of `get_weather` are the
  constructors of `PyExn`; all of them are subclasses of `Exception` in
  Python, recorded by `PyExn.isException`.
* The outcome of `requests.get` is an explicit parameter
  `Except String HttpResponse`: `.error msg` is a raised
  `requests.exceptions.RequestException` that is not an `HTTPError`
  (network failure), `.ok r` a received response whose `.json()` outcome is
  `r.body`.
* `datetime.fromtimestamp(..).strftime("%H:%M")` is modelled with an
  explicit local-timezone offset `tz` in seconds.
* Side effects (log lines, outbound HTTP requests, replies, `user_data`
  writes) are returned explicitly in result structures.
-/

namespace Test21

/-- JSON values as produced by Python's `json` module (numbers as integers). -/
inductive Json where
  | null : Json
  | bool (b : Bool) : Json
  | num (n : Int) : Json
  | str (s : String) : Json
  | arr (elems : List Json) : Json
  | obj (fields : List (String × Json)) : Json

/-- The Python exceptions that the `try` block of `get_weather` can raise.
`httpError` carries the status code of the response it was raised from
(as `requests.exceptions.HTTPError` does via `e.response`). -/
inductive PyExn where
  | httpError (status : Nat) (msg : String) : PyExn
  | requestError (msg : String) : PyExn
  | jsonDecodeError (msg : String) : PyExn
  | keyError (keyRepr : String) : PyExn
  | indexError (msg : String) : PyExn
  | typeError (msg : String) : PyExn
  | attributeError (msg : String) : PyExn
deriving DecidableEq

/-- `isinstance(e, requests.exceptions.HTTPError)`: which modelled exceptions
the first `except` clause of `get_weather` catches. -/
def PyExn.isHTTPError : PyExn → Bool
  | .httpError _ _ => true
  | _ => false

/-- `isinstance(e, Exception)`: every modelled exception class derives from
`Exception`, so the second `except` clause catches all of them. -/
def PyExn.isException : PyExn → Bool
  | .httpError _ _ => true
  | .requestError _ => true
  | .jsonDecodeError _ => true
  | .keyError _ => true
  | .indexError _ => true
  | .typeError _ => true
  | .attributeError _ => true

/-- A single-quote character, used by Python `repr` of strings. -/
def sq : String := String.singleton (Char.ofNat 39)

mutual

/-- Python `repr` of a parsed JSON value (string escaping inside `repr` of
strings is not modelled). -/
def Json.pyRepr : Json → String
  | .null => "None"
  | .bool true => "True"
  | .bool false => "False"
  | .num n => toString n
  | .str s => sq ++ s ++ sq
  | .arr xs => "[" ++ Json.pyReprList xs ++ "]"
  | .obj fs => "\x7b" ++ Json.pyReprFields fs ++ "\x7d"

/-- `repr` of the elements of a Python list, comma separated. -/
def Json.pyReprList : List Json → String
  | [] => ""
  | [x] => x.pyRepr
  | x :: y :: xs => x.pyRepr ++ ", " ++ Json.pyReprList (y :: xs)

/-- `repr` of the entries of a Python dict, comma separated. -/
def Json.pyReprFields : List (String × Json) → String
  | [] => ""
  | [(k, v)] => sq ++ k ++ sq ++ ": " ++ v.pyRepr
  | (k, v) :: f :: fs => sq ++ k ++ sq ++ ": " ++ v.pyRepr ++ ", " ++ Json.pyReprFields (f :: fs)

end

/-- Python `str` of a parsed JSON value, as used by f-string interpolation. -/
def Json.pyStr : Json → String
  | .str s => s
  | v => v.pyRepr

/-- Python `str(e)` for the modelled exceptions (`str` of a `KeyError` is the
`repr` of the missing key). -/
def PyExn.pyStr : PyExn → String
  | .httpError _ msg => msg
  | .requestError msg => msg
  | .jsonDecodeError msg => msg
  | .keyError keyRepr => keyRepr
  | .indexError msg => msg
  | .typeError msg => msg
  | .attributeError msg => msg

/-- First value bound to a key in a Python dict, if any. -/
def jLookup : Json → String → Option Json
  | .obj fields, k => fields.lookup k
  | _, _ => none

/-- Python `data[k]` for a string key `k`: a value on a dict holding the key,
`KeyError` on a dict missing it, `TypeError` on any non-dict. -/
def Json.getKey : Json → String → Except PyExn Json
  | .obj fields, k =>
    match fields.lookup k with
    | some v => Except.ok v
    | none => Except.error (PyExn.keyError (sq ++ k ++ sq))
  | .arr _, _ => Except.error (PyExn.typeError "list indices must be integers or slices, not str")
  | .str _, _ => Except.error (PyExn.typeError "string indices must be integers")
  | _, _ => Except.error (PyExn.typeError "object is not subscriptable")

/-- Python `data[i]` for a natural index `i`: list and string indexing
succeed in range and raise `IndexError` out of range; a dict raises
`KeyError`, other values `TypeError`. -/
def Json.index : Json → Nat → Except PyExn Json
  | .arr xs, i =>
    match xs.get? i with
    | some v => Except.ok v
    | none => Except.error (PyExn.indexError "list index out of range")
  | .str s, i =>
    match s.data.get? i with
    | some c => Except.ok (Json.str (String.singleton c))
    | none => Except.error (PyExn.indexError "string index out of range")
  | .obj _, i => Except.error (PyExn.keyError (toString i))
  | _, _ => Except.error (PyExn.typeError "object is not subscriptable")

/-- Python `data.get(k, default)`: only dicts have `.get`; missing keys give
the default. -/
def Json.getD : Json → String → Json → Except PyExn Json
  | .obj fields, k, dflt => Except.ok ((fields.lookup k).getD dflt)
  | _, _, _ => Except.error (PyExn.attributeError "object has no attribute get")

/-- The response bound to `r` by `requests.get`: status code, reason phrase,
final URL, and the outcome of `r.json()` (`.error` is a raised
`json.JSONDecodeError`). -/
structure HttpResponse where
  status : Nat
  reason : String
  url : String
  body : Except String Json

/-- `requests.Response.raise_for_status`: raises `HTTPError` exactly for
status codes 400–599, with the message format of the `requests` library. -/
def raiseForStatus (r : HttpResponse) : Except PyExn Unit :=
  if 400 ≤ r.status ∧ r.status < 500 then
    Except.error (PyExn.httpError r.status
      (toString r.status ++ " Client Error: " ++ r.reason ++ " for url: " ++ r.url))
  else if 500 ≤ r.status ∧ r.status < 600 then
    Except.error (PyExn.httpError r.status
      (toString r.status ++ " Server Error: " ++ r.reason ++ " for url: " ++ r.url))
  else
    Except.ok ()

/-- Zero-padded two-digit rendering, as `strftime` `%H` / `%M` produce. -/
def twoDigit (n : Nat) : String :=
  if n < 10 then "0" ++ toString n else toString n

/-- `datetime.fromtimestamp(ts).strftime("%H:%M")` with local timezone offset
`tz` seconds: local hour and minute of the epoch timestamp, zero padded. -/
def strftimeHM (tz ts : Int) : String :=
  let day : Nat := ((ts + tz).emod 86400).toNat
  twoDigit (day / 3600) ++ ":" ++ twoDigit (day % 3600 / 60)

/-- `datetime.fromtimestamp` applied to a JSON value: numbers (and booleans,
which are ints in Python) are accepted, everything else raises `TypeError`. -/
def fromTimestampHM (tz : Int) : Json → Except PyExn String
  | .num n => Except.ok (strftimeHM tz n)
  | .bool b => Except.ok (strftimeHM tz (if b then 1 else 0))
  | _ => Except.error (PyExn.typeError "an integer is required")

/-- One outbound HTTP GET request: URL and query parameters in order. -/
structure HttpRequest where
  url : String
  params : List (String × String)
deriving DecidableEq

/-- Log levels used by the program. -/
inductive LogLevel where
  | info : LogLevel
  | warning : LogLevel
  | error : LogLevel
deriving DecidableEq

/-- Result of a `get_weather` call: the returned display string, the log
lines emitted, and the outbound HTTP requests issued. -/
structure GWResult where
  result : String
  logs : List (LogLevel × String)
  requests : List HttpRequest

/-- The weather API endpoint URL. -/
def weatherURL : String := "https://api.openweathermap.org/data/2.5/weather"

/-- The `params` dict of `get_weather`, passed to `requests.get`: the city
string is passed through verbatim. -/
def weatherRequest (apiKey city : String) : HttpRequest :=
  { url := weatherURL
    params := [("q", city), ("appid", apiKey), ("units", "metric"), ("lang", "ru")] }

/-- The success template of `get_weather` (lines 82–90 of the source), after
f-string interpolation of the extracted fields. -/
def formatWeather (city descS tempS humS presS windS sunsetS : String) : String :=
  "🌤 <b>Погода в " ++ city ++ "</b>\n" ++
  "Описание: " ++ descS ++ "\n" ++
  "Температура: " ++ tempS ++ " °C\n" ++
  "Влажность: " ++ humS ++ " %\n" ++
  "Давление: " ++ presS ++ " гПа\n" ++
  "Скорость ветра: " ++ windS ++ " м/с\n" ++
  "Закат: " ++ sunsetS

/-- The `try` block of `get_weather` (lines 69–91): the HTTP call,
`raise_for_status`, JSON parsing, field extraction and formatting, with
every raisable exception surfaced in the `Except`. -/
def tryBlock (tz : Int) (city : String) (out : Except String HttpResponse) :
    Except PyExn String :=
  match out with
  | Except.error msg => Except.error (PyExn.requestError msg)
  | Except.ok r => do
    raiseForStatus r
    let data ← match r.body with
      | Except.ok d => Except.ok d
      | Except.error msg => Except.error (PyExn.jsonDecodeError msg)
    let weatherArr ← data.getKey "weather"
    let weather0 ← weatherArr.index 0
    let description ← weather0.getKey "description"
    let mainJ ← data.getKey "main"
    let temp ← mainJ.getKey "temp"
    let humidity ← mainJ.getKey "humidity"
    let pressure ← mainJ.getD "grnd_level" (Json.str "н/д")
    let windJ ← data.getKey "wind"
    let windSpeed ← windJ.getKey "speed"
    let sysJ ← data.getKey "sys"
    let sunsetTimestamp ← sysJ.getKey "sunset"
    let sunsetTime ← fromTimestampHM tz sunsetTimestamp
    Except.ok (formatWeather city description.pyStr temp.pyStr humidity.pyStr
      pressure.pyStr windSpeed.pyStr sunsetTime)

/-- `get_weather` with the two `except` clauses made explicit: an exception
not caught by either clause would propagate as `Except.error`. The first
clause catches `HTTPError` and branches on the status code of the response
it was raised from (`r.status_code` in the source); the second catches
every `Exception`. -/
def get_weather_exc (apiKey : String) (tz : Int) (city : String)
    (out : Except String HttpResponse) : Except PyExn GWResult :=
  let req := weatherRequest apiKey city
  match tryBlock tz city out with
  | Except.ok info => Except.ok { result := info, logs := [], requests := [req] }
  | Except.error e =>
    match e with
    | PyExn.httpError status msg =>
      if status == 404 then
        Except.ok { result := "❌ Город " ++ sq ++ city ++ sq ++ " не найден."
                    logs := []
                    requests := [req] }
      else
        Except.ok { result := "❌ Ошибка API: " ++ msg
                    logs := [(LogLevel.error,
                      "HTTP ошибка при запросе погоды для " ++ city ++ ": " ++ msg)]
                    requests := [req] }
    | _ =>
      if e.isException then
        Except.ok { result := "❌ Произошла ошибка: " ++ e.pyStr
                    logs := [(LogLevel.error,
                      "Неожиданная ошибка при запросе погоды для " ++ city ++ ": " ++ e.pyStr)]
                    requests := [req] }
      else
        Except.error e

/-- `get_weather` as its callers see it: a total function returning a display
string (the fallback branch is unreachable, see `get_weather_exc_ok`). -/
def get_weather (apiKey : String) (tz : Int) (city : String)
    (out : Except String HttpResponse) : GWResult :=
  match get_weather_exc apiKey tz city out with
  | Except.ok r => r
  | Except.error _ => { result := "", logs := [], requests := [] }

set_option linter.unnecessarySeqFocus false in
/-- Every exception raisable from the `try` block of `get_weather` is caught:
the explicit-exception semantics never ends in `Except.error`. -/
theorem get_weather_exc_ok (apiKey : String) (tz : Int) (city : String)
    (out : Except String HttpResponse) :
    get_weather_exc apiKey tz city out = Except.ok (get_weather apiKey tz city out) := by
  unfold get_weather get_weather_exc
  cases tryBlock tz city out with
  | ok info => rfl
  | error e => cases e <;> simp [PyExn.isException] <;> split <;> rfl

/-- The four preset cities shown on the `/start` keyboard (line 44). -/
def DEFAULT_CITIES : List String := ["Москва", "Санкт-Петербург", "Сочи", "Игора"]

/-- The default city constant (line 45, unused by the handlers). -/
def DEFAULT_CITY : String := "Санкт-Петербург"

/-- A `ReplyKeyboardMarkup`: rows of button labels plus its two flags. -/
structure Markup where
  keyboard : List (List String)
  resizeKeyboard : Bool
  oneTimeKeyboard : Bool
deriving DecidableEq

/-- One reply sent by a handler: its text and optional keyboard markup
(`parse_mode="HTML"` is uniform and not modelled). -/
structure Reply where
  text : String
  markup : Option Markup
deriving DecidableEq

/-- The per-session `context.user_data` dict, with string keys and values. -/
abbrev UserData := List (String × String)

/-- Python dict assignment `ud[k] = v`: overwrite the key in place if
present, otherwise append the new entry. -/
def setUD (ud : UserData) (k v : String) : UserData :=
  if ud.any (fun p => p.1 == k) then
    ud.map (fun p => if p.1 = k then (k, v) else p)
  else ud ++ [(k, v)]

/-- The observable effects of one handler invocation: replies sent, the
session dict after the handler, the cities passed to `get_weather`, log
lines, and outbound HTTP requests. -/
structure HandlerResult where
  replies : List Reply
  userData : UserData
  lookups : List String
  logs : List (LogLevel × String)
  requests : List HttpRequest

/-- The `/start` handler (lines 103–113): replies with the greeting and the
preset-city keyboard, one button per row, resizeable, not one-time. -/
def start (ud : UserData) : HandlerResult :=
  { replies := [{ text := "Привет! Выберите город из списка или введите свой:"
                  markup := some { keyboard := DEFAULT_CITIES.map (fun c => [c])
                                   resizeKeyboard := true
                                   oneTimeKeyboard := false } }]
    userData := ud
    lookups := []
    logs := []
    requests := [] }

/-- The static `/help` text (lines 118–127). -/
def helpText : String :=
  "🤖 <b>Помощник погодного бота</b>\n\n" ++
  "Доступные команды:\n" ++
  "/start — открыть клавиатуру с городами\n" ++
  "/help — показать эту справку\n" ++
  "/weather &lt;город&gt; — погода в указанном городе\n\n" ++
  "Вы также можете просто написать название города.\n\n" ++
  "Пример:\n" ++
  "/weather Москва"

/-- The `/help` handler (lines 116–128): replies with the static usage text. -/
def help_command (ud : UserData) : HandlerResult :=
  { replies := [{ text := helpText, markup := none }]
    userData := ud
    lookups := []
    logs := []
    requests := [] }

/-- The `/weather` handler (lines 131–140): with arguments, join them with
single spaces into the city string and look it up; with none, reply the
fixed "specify a city" message and call nothing. -/
def weather (apiKey : String) (tz : Int) (args : List String) (ud : UserData)
    (out : Except String HttpResponse) : HandlerResult :=
  if args ≠ [] then
    let city := String.intercalate " " args
    let gw := get_weather apiKey tz city out
    { replies := [{ text := gw.result, markup := none }]
      userData := ud
      lookups := [city]
      logs := gw.logs
      requests := gw.requests }
  else
    { replies := [{ text := "❌ Укажите город после команды /weather", markup := none }]
      userData := ud
      lookups := []
      logs := []
      requests := [] }

/-- The free-text message handler (lines 143–149): the stripped message text
is the city; look it up, reply with the result, record it under
`last_city`, and log the user id and city at info level. -/
def handle_message (apiKey : String) (tz : Int) (text : String) (uid : Nat)
    (ud : UserData) (out : Except String HttpResponse) : HandlerResult :=
  let city := text.trim
  let gw := get_weather apiKey tz city out
  { replies := [{ text := gw.result, markup := none }]
    userData := setUD ud "last_city" city
    lookups := [city]
    logs := gw.logs ++ [(LogLevel.info,
      "Пользователь " ++ toString uid ++ " запросил погоду для " ++ city)]
    requests := gw.requests }

/-- The startup configuration check (lines 36–42): read both secrets from
the environment, then raise `ValueError` if `API_KEY` is falsy, then if
`TG_KEY` is falsy (Python truthiness: an absent and an empty value both
raise). -/
def loadConfig (env : String → Option String) : Except String (String × String) :=
  let apiKey := env "API_KEY"
  let tgKey := env "TG_KEY"
  if apiKey.getD "" = "" then
    Except.error "Не найден API_KEY в переменных окружения (.env)"
  else if tgKey.getD "" = "" then
    Except.error "Не найден TG_KEY в переменных окружения (.env)"
  else
    Except.ok (apiKey.getD "", tgKey.getD "")

/-- The bot application that `main` (lines 159–175) would build and poll:
its token, API key, and registered handler names. -/
structure BotApp where
  tgToken : String
  apiKey : String
  handlers : List String

/-- Module load followed by `main`: the configuration check runs first (it
sits at module top level, lines 39–42, before logging setup, handler
registration, and polling), so on any configuration error no application is
ever built and no handler can run. -/
def boot (env : String → Option String) : Except String BotApp :=
  match loadConfig env with
  | Except.error msg => Except.error msg
  | Except.ok (apiKey, tgKey) =>
    Except.ok { tgToken := tgKey
                apiKey := apiKey
                handlers := ["start", "help_command", "weather", "handle_message"] }

/-- `t` occurs as a contiguous substring of `s`. -/
def containsStr (s t : String) : Prop := ∃ a b, s = a ++ t ++ b

/-! ### Helper lemmas -/

/-- Reduction of `Except` bind on a success value. -/
theorem excBindOk {e a b : Type} (x : a) (f : a → Except e b) :
    (Except.ok x >>= f) = f x := rfl

/-- Reduction of `Except` bind on an error value. -/
theorem excBindError {e a b : Type} (err : e) (f : a → Except e b) :
    ((Except.error err : Except e a) >>= f) = Except.error err := rfl

/-- `raise_for_status` is a no-op below status 400. -/
lemma raiseForStatus_ok (r : HttpResponse) (h : r.status < 400) :
    raiseForStatus r = Except.ok () := by
  have h1 : ¬(400 ≤ r.status ∧ r.status < 500) := by omega
  have h2 : ¬(500 ≤ r.status ∧ r.status < 600) := by omega
  simp [raiseForStatus, h1, h2]

/-- `raise_for_status` on a 4xx status raises a client-error `HTTPError`. -/
lemma raiseForStatus_client (r : HttpResponse) (h1 : 400 ≤ r.status) (h2 : r.status < 500) :
    raiseForStatus r = Except.error (PyExn.httpError r.status
      (toString r.status ++ " Client Error: " ++ r.reason ++ " for url: " ++ r.url)) := by
  simp [raiseForStatus, h1, h2]

/-- `raise_for_status` on a 5xx status raises a server-error `HTTPError`. -/
lemma raiseForStatus_server (r : HttpResponse) (h1 : 500 ≤ r.status) (h2 : r.status < 600) :
    raiseForStatus r = Except.error (PyExn.httpError r.status
      (toString r.status ++ " Server Error: " ++ r.reason ++ " for url: " ++ r.url)) := by
  have h3 : ¬(400 ≤ r.status ∧ r.status < 500) := by omega
  simp [raiseForStatus, h3, h1, h2]

set_option linter.unnecessarySeqFocus false in
/-- `.get` with a default on a dict (witnessed by a successful key access)
returns the default when the key is absent. -/
lemma getD_of_lookup_none (j : Json) (k k2 : String) (v dflt : Json)
    (hk : j.getKey k = Except.ok v) (hn : jLookup j k2 = none) :
    j.getD k2 dflt = Except.ok dflt := by
  cases j <;> simp [Json.getKey] at hk <;> try rfl
  case obj fields =>
    simp only [jLookup] at hn
    simp [Json.getD, hn]

/-- Every branch of `get_weather` issues exactly the one request built from
its `params` dict. -/
lemma gw_requests (apiKey : String) (tz : Int) (city : String)
    (out : Except String HttpResponse) :
    (get_weather apiKey tz city out).requests = [weatherRequest apiKey city] := by
  unfold get_weather get_weather_exc
  cases tryBlock tz city out with
  | ok info => rfl
  | error e =>
    cases e
    case httpError status msg => by_cases h4 : status = 404 <;> simp [h4]
    all_goals simp [PyExn.isException]

/-- `List.lookup` on a cons cell, stated with `==` in the condition. -/
lemma lookupConsEq (k a b : String) (t : List (String × String)) :
    List.lookup k ((a, b) :: t) = if k == a then some b else List.lookup k t := by
  cases h : k == a <;> simp [List.lookup, h]

/-- Overwriting an existing key of the session dict makes it map to the new
value. -/
lemma lookup_map_overwrite (ud : UserData) (k v : String)
    (h : ud.any (fun p => p.1 == k) = true) :
    List.lookup k (ud.map (fun p => if p.1 = k then (k, v) else p)) = some v := by
  induction ud with
  | nil => simp at h
  | cons p t ih =>
    obtain ⟨a, b⟩ := p
    simp only [List.any_cons, Bool.or_eq_true] at h
    cases hab : a == k with
    | true =>
      have he : a = k := beq_iff_eq.mp hab
      simp [List.map_cons, he, lookupConsEq]
    | false =>
      have ht : t.any (fun p => p.1 == k) = true := by
        simp only [hab, Bool.false_eq_true, false_or] at h
        exact h
      have hne : a ≠ k := beq_eq_false_iff_ne.mp hab
      have hk : (k == a) = false := beq_eq_false_iff_ne.mpr (Ne.symm hne)
      simp only [List.map_cons, if_neg hne, lookupConsEq, hk, Bool.false_eq_true,
        if_false]
      exact ih ht

/-- Appending a fresh key to the session dict makes it map to the appended
value. -/
lemma lookup_append_new (ud : UserData) (k v : String)
    (h : ud.any (fun p => p.1 == k) = false) :
    List.lookup k (ud ++ [(k, v)]) = some v := by
  induction ud with
  | nil => simp [lookupConsEq]
  | cons p t ih =>
    obtain ⟨a, b⟩ := p
    simp only [List.any_cons, Bool.or_eq_false_iff] at h
    have hne : a ≠ k := beq_eq_false_iff_ne.mp h.1
    have hk : (k == a) = false := beq_eq_false_iff_ne.mpr (Ne.symm hne)
    simp [List.cons_append, lookupConsEq, hk, ih h.2]

/-- After the dict assignment `ud[k] = v`, looking up `k` yields `v`. -/
lemma lookup_setUD (ud : UserData) (k v : String) :
    List.lookup k (setUD ud k v) = some v := by
  unfold setUD
  by_cases h : ud.any (fun p => p.1 == k) = true
  · simp only [if_pos h]
    exact lookup_map_overwrite ud k v h
  · simp only [if_neg h]
    exact lookup_append_new ud k v (Bool.eq_false_iff.mpr h)

/-- Two appends whose left parts differ within their first `n` characters
are different strings. -/
lemma append_ne_of_take_ne (a b s t : String) (n : Nat)
    (hne : a.data.take n ≠ b.data.take n)
    (hla : n ≤ a.data.length) (hlb : n ≤ b.data.length) :
    a ++ s ≠ b ++ t := by
  intro h
  apply hne
  have hd : a.data ++ s.data = b.data ++ t.data := by
    have h2 := congrArg String.data h
    simpa [String.data_append] using h2
  calc a.data.take n = (a.data ++ s.data).take n := (List.take_append_of_le_length hla).symm
    _ = (b.data ++ t.data).take n := by rw [hd]
    _ = b.data.take n := List.take_append_of_le_length hlb

/-- The "city not found" message is never of the "API error" shape. -/
lemma notFound_ne_apiErr (city msg : String) :
    "❌ Город " ++ sq ++ city ++ sq ++ " не найден." ≠ "❌ Ошибка API: " ++ msg := by
  have h := append_ne_of_take_ne "❌ Город " "❌ Ошибка API: "
    (sq ++ city ++ sq ++ " не найден.") msg 3 (by decide) (by decide) (by decide)
  intro heq
  exact h (by rw [← heq]; simp [String.append_assoc])

/-- The success template is never of the "API error" shape. -/
lemma formatWeather_ne_apiErr (c d t h p w s msg : String) :
    formatWeather c d t h p w s ≠ "❌ Ошибка API: " ++ msg := by
  have hne := append_ne_of_take_ne "🌤 <b>Погода в " "❌ Ошибка API: "
    (c ++ "</b>\n" ++ "Описание: " ++ d ++ "\n" ++ "Температура: " ++ t ++ " °C\n" ++
      "Влажность: " ++ h ++ " %\n" ++ "Давление: " ++ p ++ " гПа\n" ++
      "Скорость ветра: " ++ w ++ " м/с\n" ++ "Закат: " ++ s) msg 1
    (by decide) (by decide) (by decide)
  intro heq
  exact hne (by rw [← heq]; simp [formatWeather, String.append_assoc])

/-- The rendering produced by `strftimeHM` is a two-digit in-range hour and
minute. -/
lemma strftimeHM_format (tz ts : Int) :
    ∃ hh mm, hh < 24 ∧ mm < 60 ∧ strftimeHM tz ts = twoDigit hh ++ ":" ++ twoDigit mm := by
  refine ⟨((ts + tz).emod 86400).toNat / 3600, ((ts + tz).emod 86400).toNat % 3600 / 60,
    ?_, ?_, rfl⟩
  · have h1 : (ts + tz).emod 86400 < 86400 := Int.emod_lt_of_pos _ (by norm_num)
    have h2 : 0 ≤ (ts + tz).emod 86400 := Int.emod_nonneg _ (by norm_num)
    omega
  · have h3 : ((ts + tz).emod 86400).toNat % 3600 < 3600 := Nat.mod_lt _ (by norm_num)
    omega

/-- The success template contains each of its interpolated pieces. -/
lemma formatWeather_contains (c d t h p w s : String) :
    containsStr (formatWeather c d t h p w s) c ∧
    containsStr (formatWeather c d t h p w s) d ∧
    containsStr (formatWeather c d t h p w s) t ∧
    containsStr (formatWeather c d t h p w s) h ∧
    containsStr (formatWeather c d t h p w s) p ∧
    containsStr (formatWeather c d t h p w s) w ∧
    containsStr (formatWeather c d t h p w s) s := by
  refine ⟨⟨"🌤 <b>Погода в ",
      "</b>\n" ++ "Описание: " ++ d ++ "\n" ++ "Температура: " ++ t ++ " °C\n" ++
        "Влажность: " ++ h ++ " %\n" ++ "Давление: " ++ p ++ " гПа\n" ++
        "Скорость ветра: " ++ w ++ " м/с\n" ++ "Закат: " ++ s, ?_⟩,
    ⟨"🌤 <b>Погода в " ++ c ++ "</b>\n" ++ "Описание: ",
      "\n" ++ "Температура: " ++ t ++ " °C\n" ++ "Влажность: " ++ h ++ " %\n" ++
        "Давление: " ++ p ++ " гПа\n" ++ "Скорость ветра: " ++ w ++ " м/с\n" ++
        "Закат: " ++ s, ?_⟩,
    ⟨"🌤 <b>Погода в " ++ c ++ "</b>\n" ++ "Описание: " ++ d ++ "\n" ++ "Температура: ",
      " °C\n" ++ "Влажность: " ++ h ++ " %\n" ++ "Давление: " ++ p ++ " гПа\n" ++
        "Скорость ветра: " ++ w ++ " м/с\n" ++ "Закат: " ++ s, ?_⟩,
    ⟨"🌤 <b>Погода в " ++ c ++ "</b>\n" ++ "Описание: " ++ d ++ "\n" ++ "Температура: " ++ t ++
        " °C\n" ++ "Влажность: ",
      " %\n" ++ "Давление: " ++ p ++ " гПа\n" ++ "Скорость ветра: " ++ w ++ " м/с\n" ++
        "Закат: " ++ s, ?_⟩,
    ⟨"🌤 <b>Погода в " ++ c ++ "</b>\n" ++ "Описание: " ++ d ++ "\n" ++ "Температура: " ++ t ++
        " °C\n" ++ "Влажность: " ++ h ++ " %\n" ++ "Давление: ",
      " гПа\n" ++ "Скорость ветра: " ++ w ++ " м/с\n" ++ "Закат: " ++ s, ?_⟩,
    ⟨"🌤 <b>Погода в " ++ c ++ "</b>\n" ++ "Описание: " ++ d ++ "\n" ++ "Температура: " ++ t ++
        " °C\n" ++ "Влажность: " ++ h ++ " %\n" ++ "Давление: " ++ p ++ " гПа\n" ++
        "Скорость ветра: ",
      " м/с\n" ++ "Закат: " ++ s, ?_⟩,
    ⟨"🌤 <b>Погода в " ++ c ++ "</b>\n" ++ "Описание: " ++ d ++ "\n" ++ "Температура: " ++ t ++
        " °C\n" ++ "Влажность: " ++ h ++ " %\n" ++ "Давление: " ++ p ++ " гПа\n" ++
        "Скорость ветра: " ++ w ++ " м/с\n" ++ "Закат: ", "", ?_⟩⟩ <;>
  simp [formatWeather, String.append_assoc, String.append_empty]

/-! ### Claim theorems -/

/-- A malformed-body 404 response used as concrete witness input. -/
def r404 : HttpResponse :=
  { status := 404, reason := "Not Found", url := weatherURL
    body := Except.error "Expecting value: line 1 column 1 (char 0)" }

/-- A 503 response used as concrete witness input. -/
def r503 : HttpResponse :=
  { status := 503, reason := "Service Unavailable", url := weatherURL
    body := Except.error "Expecting value: line 1 column 1 (char 0)" }

/-- A well-formed weather response body used as concrete witness input. -/
def sampleJson : Json :=
  Json.obj [
    ("weather", Json.arr [Json.obj [("description", Json.str "ясно")]]),
    ("main", Json.obj [("temp", Json.num 20), ("humidity", Json.num 56)]),
    ("wind", Json.obj [("speed", Json.num 3)]),
    ("sys", Json.obj [("sunset", Json.num 1728059400)])]

/-- A 200 response carrying `sampleJson`. -/
def r200 : HttpResponse :=
  { status := 200, reason := "OK", url := weatherURL, body := Except.ok sampleJson }

/-- A 304 response carrying `sampleJson`: a non-2xx status that
`raise_for_status` does not turn into an `HTTPError`. -/
def r304 : HttpResponse :=
  { status := 304, reason := "Not Modified", url := weatherURL, body := Except.ok sampleJson }

/-- Claim C1: for every input city string and every modelled outcome of the
HTTP call (success, 404, other HTTP error, network failure, malformed JSON,
missing response keys), `get_weather` lets no exception propagate: its
explicit-exception semantics always returns the display string that the
total `get_weather` computes. -/
theorem claim_C1 (apiKey : String) (tz : Int) (city : String)
    (out : Except String HttpResponse) :
    get_weather_exc apiKey tz city out = Except.ok (get_weather apiKey tz city out) :=
  get_weather_exc_ok apiKey tz city out

/-- Claim C2: a 404 response makes `get_weather` return exactly the "city not
found" message naming the city — never a string of the generic API-error
shape — and emit no log entry. -/
theorem claim_C2 (apiKey : String) (tz : Int) (city : String) (r : HttpResponse)
    (h : r.status = 404) :
    (get_weather apiKey tz city (Except.ok r)).result =
      "❌ Город " ++ sq ++ city ++ sq ++ " не найден." ∧
    (∀ msg, (get_weather apiKey tz city (Except.ok r)).result ≠ "❌ Ошибка API: " ++ msg) ∧
    (get_weather apiKey tz city (Except.ok r)).logs = [] := by
  have hc := raiseForStatus_client r (by omega) (by omega)
  have hres : (get_weather apiKey tz city (Except.ok r)).result =
      "❌ Город " ++ sq ++ city ++ sq ++ " не найден." := by
    simp [get_weather, get_weather_exc, tryBlock, hc, excBindError, h]
  refine ⟨hres, fun msg => ?_, ?_⟩
  · rw [hres]
    exact notFound_ne_apiErr city msg
  · simp [get_weather, get_weather_exc, tryBlock, hc, excBindError, h]

/-- Witness for C2: the 404 branch evaluated on a concrete response. -/
theorem claim_C2_witness :
    (get_weather "key" 10800 "Сочи" (Except.ok r404)).result =
      "❌ Город " ++ sq ++ "Сочи" ++ sq ++ " не найден." ∧
    (get_weather "key" 10800 "Сочи" (Except.ok r404)).result ≠ "❌ Ошибка API: " ++ "x" ∧
    (get_weather "key" 10800 "Сочи" (Except.ok r404)).logs = [] :=
  ⟨(claim_C2 "key" 10800 "Сочи" r404 rfl).1,
   (claim_C2 "key" 10800 "Сочи" r404 rfl).2.1 "x",
   (claim_C2 "key" 10800 "Сочи" r404 rfl).2.2⟩

/-- Claim C3 (amended: "non-2xx status" tightened to "HTTP error status
400–599", the statuses `raise_for_status` raises on): such a status other
than 404 makes `get_weather` return the generic API-error message carrying
the error text and emit exactly one error-level log entry carrying the same
text. -/
theorem claim_C3 (apiKey : String) (tz : Int) (city : String) (r : HttpResponse)
    (h1 : 400 ≤ r.status) (h2 : r.status < 600) (h3 : r.status ≠ 404) :
    ∃ msg, (get_weather apiKey tz city (Except.ok r)).result = "❌ Ошибка API: " ++ msg ∧
      (get_weather apiKey tz city (Except.ok r)).logs =
        [(LogLevel.error, "HTTP ошибка при запросе погоды для " ++ city ++ ": " ++ msg)] := by
  rcases Nat.lt_or_ge r.status 500 with h5 | h5
  · exact ⟨toString r.status ++ " Client Error: " ++ r.reason ++ " for url: " ++ r.url,
      by simp [get_weather, get_weather_exc, tryBlock, raiseForStatus_client r h1 h5,
        excBindError, h3],
      by simp [get_weather, get_weather_exc, tryBlock, raiseForStatus_client r h1 h5,
        excBindError, h3]⟩
  · exact ⟨toString r.status ++ " Server Error: " ++ r.reason ++ " for url: " ++ r.url,
      by simp [get_weather, get_weather_exc, tryBlock, raiseForStatus_server r h5 h2,
        excBindError, h3],
      by simp [get_weather, get_weather_exc, tryBlock, raiseForStatus_server r h5 h2,
        excBindError, h3]⟩

/-- Counterexample to C3 as frozen ("non-2xx status other than 404"): a 304
response is non-2xx and not 404, yet `get_weather` parses its body, returns
the success template and logs nothing, because `raise_for_status` only
raises for statuses 400–599. -/
theorem claim_C3_counterexample :
    r304.status = 304 ∧ r304.status ≠ 404 ∧ ¬(200 ≤ r304.status ∧ r304.status ≤ 299) ∧
    (get_weather "key" 10800 "Сочи" (Except.ok r304)).logs = [] ∧
    (get_weather "key" 10800 "Сочи" (Except.ok r304)).result =
      formatWeather "Сочи" "ясно" "20" "56" "н/д" "3" "19:30" :=
  ⟨rfl, by decide, by decide, rfl, rfl⟩

/-- Witness for C3 on a concrete 503 response. -/
theorem claim_C3_witness :
    ∃ msg, (get_weather "key" 10800 "Сочи" (Except.ok r503)).result =
        "❌ Ошибка API: " ++ msg ∧
      (get_weather "key" 10800 "Сочи" (Except.ok r503)).logs =
        [(LogLevel.error, "HTTP ошибка при запросе погоды для " ++ "Сочи" ++ ": " ++ msg)] :=
  claim_C3 "key" 10800 "Сочи" r503 (by decide) (by decide) (by decide)

/-- Claim C4: a 2xx response whose body holds the expected fields, with
`main.grnd_level` absent, makes `get_weather` return the success template:
it contains the city, the description, the rendered temperature, humidity
and wind speed, the pressure placeholder "н/д", and the sunset time as
two-digit hour:minute. -/
theorem claim_C4 (apiKey : String) (tz : Int) (city desc : String)
    (temp hum wind sunset : Int) (r : HttpResponse) (data wArr w0 mainJ windJ sysJ : Json)
    (hs1 : 200 ≤ r.status) (hs2 : r.status ≤ 299)
    (hb : r.body = Except.ok data)
    (hW : data.getKey "weather" = Except.ok wArr)
    (h0 : wArr.index 0 = Except.ok w0)
    (hd : w0.getKey "description" = Except.ok (Json.str desc))
    (hm : data.getKey "main" = Except.ok mainJ)
    (ht : mainJ.getKey "temp" = Except.ok (Json.num temp))
    (hh : mainJ.getKey "humidity" = Except.ok (Json.num hum))
    (hg : jLookup mainJ "grnd_level" = none)
    (hwind : data.getKey "wind" = Except.ok windJ)
    (hws : windJ.getKey "speed" = Except.ok (Json.num wind))
    (hsys : data.getKey "sys" = Except.ok sysJ)
    (hss : sysJ.getKey "sunset" = Except.ok (Json.num sunset)) :
    (get_weather apiKey tz city (Except.ok r)).result =
      formatWeather city desc (toString temp) (toString hum) "н/д" (toString wind)
        (strftimeHM tz sunset) ∧
    containsStr (get_weather apiKey tz city (Except.ok r)).result city ∧
    containsStr (get_weather apiKey tz city (Except.ok r)).result desc ∧
    containsStr (get_weather apiKey tz city (Except.ok r)).result (toString temp) ∧
    containsStr (get_weather apiKey tz city (Except.ok r)).result (toString hum) ∧
    containsStr (get_weather apiKey tz city (Except.ok r)).result "н/д" ∧
    containsStr (get_weather apiKey tz city (Except.ok r)).result (toString wind) ∧
    ∃ hhr mins, hhr < 24 ∧ mins < 60 ∧
      containsStr (get_weather apiKey tz city (Except.ok r)).result
        (twoDigit hhr ++ ":" ++ twoDigit mins) := by
  have hra := raiseForStatus_ok r (by omega)
  have hgd : mainJ.getD "grnd_level" (Json.str "н/д") = Except.ok (Json.str "н/д") :=
    getD_of_lookup_none mainJ "temp" "grnd_level" (Json.num temp) (Json.str "н/д") ht hg
  have hres : (get_weather apiKey tz city (Except.ok r)).result =
      formatWeather city desc (toString temp) (toString hum) "н/д" (toString wind)
        (strftimeHM tz sunset) := by
    simp [get_weather, get_weather_exc, tryBlock, hra, hb, hW, h0, hd, hm, ht, hh, hgd,
      hwind, hws, hsys, hss, excBindOk, fromTimestampHM, Json.pyStr, Json.pyRepr]
  obtain ⟨hc1, hc2, hc3, hc4, hc5, hc6, hc7⟩ := formatWeather_contains city desc
    (toString temp) (toString hum) "н/д" (toString wind) (strftimeHM tz sunset)
  obtain ⟨hhr, mins, hhlt, hmlt, hfmt⟩ := strftimeHM_format tz sunset
  rw [hres]
  exact ⟨rfl, hc1, hc2, hc3, hc4, hc5, hc6, hhr, mins, hhlt, hmlt, hfmt ▸ hc7⟩

/-- Witness for C4 on a concrete 200 response with `grnd_level` absent. -/
theorem claim_C4_witness :
    (get_weather "key" 10800 "Сочи" (Except.ok r200)).result =
      formatWeather "Сочи" "ясно" (toString (20 : Int)) (toString (56 : Int)) "н/д"
        (toString (3 : Int)) (strftimeHM 10800 1728059400) ∧
    containsStr (get_weather "key" 10800 "Сочи" (Except.ok r200)).result "Сочи" ∧
    containsStr (get_weather "key" 10800 "Сочи" (Except.ok r200)).result "ясно" ∧
    containsStr (get_weather "key" 10800 "Сочи" (Except.ok r200)).result (toString (20 : Int)) ∧
    containsStr (get_weather "key" 10800 "Сочи" (Except.ok r200)).result (toString (56 : Int)) ∧
    containsStr (get_weather "key" 10800 "Сочи" (Except.ok r200)).result "н/д" ∧
    containsStr (get_weather "key" 10800 "Сочи" (Except.ok r200)).result (toString (3 : Int)) ∧
    ∃ hhr mins, hhr < 24 ∧ mins < 60 ∧
      containsStr (get_weather "key" 10800 "Сочи" (Except.ok r200)).result
        (twoDigit hhr ++ ":" ++ twoDigit mins) :=
  claim_C4 "key" 10800 "Сочи" "ясно" 20 56 3 1728059400 r200 sampleJson
    (Json.arr [Json.obj [("description", Json.str "ясно")]])
    (Json.obj [("description", Json.str "ясно")])
    (Json.obj [("temp", Json.num 20), ("humidity", Json.num 56)])
    (Json.obj [("speed", Json.num 3)])
    (Json.obj [("sunset", Json.num 1728059400)])
    (by decide) (by decide) rfl rfl rfl rfl rfl rfl rfl rfl rfl rfl rfl rfl

/-- Claim C5: the free-text handler treats the trimmed message text as the
city, performs exactly one lookup for it (one outbound request), sends
exactly one reply carrying the lookup result, records the trimmed city
under `last_city`, and appends one info log line naming the user id and the
city. -/
theorem claim_C5 (apiKey : String) (tz : Int) (text : String) (uid : Nat)
    (ud : UserData) (out : Except String HttpResponse) :
    (handle_message apiKey tz text uid ud out).lookups = [text.trim] ∧
    (handle_message apiKey tz text uid ud out).requests = [weatherRequest apiKey text.trim] ∧
    (handle_message apiKey tz text uid ud out).replies =
      [{ text := (get_weather apiKey tz text.trim out).result, markup := none }] ∧
    List.lookup "last_city" (handle_message apiKey tz text uid ud out).userData =
      some text.trim ∧
    (handle_message apiKey tz text uid ud out).logs =
      (get_weather apiKey tz text.trim out).logs ++
        [(LogLevel.info, "Пользователь " ++ toString uid ++ " запросил погоду для " ++
          text.trim)] :=
  ⟨rfl, gw_requests apiKey tz text.trim out, rfl,
   lookup_setUD ud "last_city" text.trim, rfl⟩

/-- Claim C6: the `/weather` handler with arguments joins them with single
spaces into one city string, looks it up once and replies with the result;
with no arguments it sends the fixed "specify a city" reply and performs
zero lookups. -/
theorem claim_C6 (apiKey : String) (tz : Int) (args : List String) (ud : UserData)
    (out : Except String HttpResponse) :
    (args ≠ [] →
      (weather apiKey tz args ud out).lookups = [String.intercalate " " args] ∧
      (weather apiKey tz args ud out).requests =
        [weatherRequest apiKey (String.intercalate " " args)] ∧
      (weather apiKey tz args ud out).replies =
        [{ text := (get_weather apiKey tz (String.intercalate " " args) out).result,
           markup := none }]) ∧
    (args = [] →
      (weather apiKey tz args ud out).replies =
        [{ text := "❌ Укажите город после команды /weather", markup := none }] ∧
      (weather apiKey tz args ud out).lookups = [] ∧
      (weather apiKey tz args ud out).requests = []) := by
  constructor
  · intro h
    unfold weather
    rw [if_pos h]
    exact ⟨rfl, gw_requests apiKey tz (String.intercalate " " args) out, rfl⟩
  · intro h
    subst h
    unfold weather
    rw [if_neg (by simp)]
    exact ⟨rfl, rfl, rfl⟩

/-- Witness for C6: a two-word city is joined with a space and looked up;
an empty argument list gets the fixed reply and no lookup. -/
theorem claim_C6_witness :
    ((weather "key" 10800 ["Нижний", "Новгород"] [] (Except.error "offline")).lookups =
        [String.intercalate " " ["Нижний", "Новгород"]] ∧
      (weather "key" 10800 ["Нижний", "Новгород"] [] (Except.error "offline")).requests =
        [weatherRequest "key" (String.intercalate " " ["Нижний", "Новгород"])] ∧
      (weather "key" 10800 ["Нижний", "Новгород"] [] (Except.error "offline")).replies =
        [{ text := (get_weather "key" 10800
              (String.intercalate " " ["Нижний", "Новгород"]) (Except.error "offline")).result,
           markup := none }]) ∧
    ((weather "key" 10800 [] [] (Except.error "offline")).replies =
        [{ text := "❌ Укажите город после команды /weather", markup := none }] ∧
      (weather "key" 10800 [] [] (Except.error "offline")).lookups = [] ∧
      (weather "key" 10800 [] [] (Except.error "offline")).requests = []) :=
  ⟨(claim_C6 "key" 10800 ["Нижний", "Новгород"] [] (Except.error "offline")).1 (by decide),
   (claim_C6 "key" 10800 [] [] (Except.error "offline")).2 rfl⟩

/-- Claim C7: if either required secret is absent from the environment, the
startup configuration check raises before any application is built, so no
network call or chat activity ever occurs and no handler runs. -/
theorem claim_C7 (env : String → Option String)
    (h : env "API_KEY" = none ∨ env "TG_KEY" = none) :
    ∃ msg, boot env = Except.error msg := by
  rcases h with h | h
  · exact ⟨"Не найден API_KEY в переменных окружения (.env)", by simp [boot, loadConfig, h]⟩
  · by_cases hA : (env "API_KEY").getD "" = ""
    · exact ⟨"Не найден API_KEY в переменных окружения (.env)", by simp [boot, loadConfig, hA]⟩
    · exact ⟨"Не найден TG_KEY в переменных окружения (.env)",
        by simp [boot, loadConfig, hA, h]⟩

/-- Witness for C7 on the empty environment. -/
theorem claim_C7_witness :
    ∃ msg, boot (fun _ => none) = Except.error msg :=
  claim_C7 (fun _ => none) (Or.inl rfl)

/-- Claim C8: every `get_weather` call issues exactly one GET request to the
weather endpoint with parameters `q=<city>`, `appid=<API_KEY>`,
`units=metric`, `lang=ru`, the city string passed through verbatim. -/
theorem claim_C8 (apiKey : String) (tz : Int) (city : String)
    (out : Except String HttpResponse) :
    (get_weather apiKey tz city out).requests =
      [{ url := "https://api.openweathermap.org/data/2.5/weather",
         params := [("q", city), ("appid", apiKey), ("units", "metric"), ("lang", "ru")] }] := by
  rw [gw_requests]
  rfl

/-- Claim C9: the `/start`, `/help` and `/weather` handlers leave the session
dict untouched; only the free-text handler writes `last_city`. -/
theorem claim_C9 (apiKey : String) (tz : Int) (args : List String) (ud : UserData)
    (out : Except String HttpResponse) :
    (start ud).userData = ud ∧
    (help_command ud).userData = ud ∧
    (weather apiKey tz args ud out).userData = ud := by
  refine ⟨rfl, rfl, ?_⟩
  unfold weather
  split <;> rfl

/-- Claim C10: the free-text handler records the trimmed message text under
`last_city` for every lookup outcome, including network failures and error
replies: the recorded value never depends on lookup success. -/
theorem claim_C10 (apiKey : String) (tz : Int) (text : String) (uid : Nat)
    (ud : UserData) (out : Except String HttpResponse) :
    List.lookup "last_city" (handle_message apiKey tz text uid ud out).userData =
      some text.trim :=
  lookup_setUD ud "last_city" text.trim


end Test21
